import Mathlib

/-!
Verification of the OAuth flow orchestrator of the wasp repository:
`finishOAuthFlowAndGetRedirectUri` and `getAuthIdFromProviderDetails`
(server/src/auth/providers/oauth/user.ts) and the Google provider adapter's
profile fetch `getGoogleProfile`.  The stateful server code is embedded as
explicit state passing over a `St` record (database, one-time-code store,
event trace); fallible steps return `Except`.  Collaborators that the
orchestrator imports but whose sources are not part of the sampled tree
(the one-time code store, `createUser`, the redirect-URI builder, the
hooks, prisma's `findUnique`) are modelled from the specification; each
such definition's doc comment says so.
-/

/-- ProviderId value object from wasp/auth/utils:
a (providerName, providerUserId) pair with structural equality. -/
structure ProviderId where
  providerName : String
  providerUserId : String
deriving DecidableEq, Repr

/-- Modelled from the spec: `createProviderId` (wasp/auth/utils, not in the
sampled tree) builds the immutable ProviderId value object from the
provider name and the provider-scoped user id. -/
def createProviderId (providerName : String) (providerUserId : String) : ProviderId :=
  { providerName := providerName, providerUserId := providerUserId }

/-- An AuthIdentity row: identity key plus opaque providerData, owned by
the Auth row `authId`. -/
structure AuthIdentityRow where
  providerName : String
  providerUserId : String
  providerData : String
  authId : Nat
deriving DecidableEq, Repr

/-- A User row, related 1:1 to its Auth row. -/
structure UserRow where
  id : Nat
  authId : Nat
deriving DecidableEq, Repr

/-- The identity-store database: Auth ids, AuthIdentity rows, User rows,
plus autoincrement counters for fresh ids. -/
structure DB where
  identities : List AuthIdentityRow
  auths : List Nat
  users : List UserRow
  nextAuthId : Nat
  nextUserId : Nat
deriving DecidableEq, Repr

/-- The user object `createUser` returns, as consumed by the orchestrator:
the code reads `user.id` (passed to the afterSignup hook) and
`user.auth.id` (here `authId`). -/
structure CreatedUser where
  id : Nat
  authId : Nat
deriving DecidableEq, Repr

/-- Observable events of one callback-handling run, in execution order:
the identity lookup (read), the two signup hooks, the transactional user
creation, and the one-time-code issuance. -/
inductive Ev where
  | lookup (pid : ProviderId)
  | beforeSignup (pid : ProviderId)
  | userCreated (pid : ProviderId) (authId : Nat) (userId : Nat)
  | afterSignup (pid : ProviderId) (userId : Nat) (accessToken : String) (uniqueRequestId : String)
  | tokenCreated (code : String) (authId : Nat)
deriving DecidableEq, Repr

/-- Server state threaded through a run: identity store, one-time-code
store (code bound to authId), and the event trace so far. -/
structure St where
  db : DB
  tokens : List (String × Nat)
  trace : List Ev
deriving DecidableEq, Repr

/-- Environment of one run: outcomes of the caller-supplied collaborators.
`validateFields` is the outcome of `validateAndGetUserFields` on the given
profile; the two hook results are the outcomes of `onBeforeSignupHook` and
`onAfterSignupHook` (opaque, caller-supplied); `freshCode` is the random
token the one-time-code store generates for this run. -/
structure Env where
  validateFields : String → Except String String
  beforeSignupResult : Except String Unit
  afterSignupResult : Except String Unit
  freshCode : String

/-- Modelled from the spec: `sanitizeAndSerializeProviderData` applied to
the empty object (user.ts line 88); the result is an opaque serialized
blob the orchestrator never inspects. -/
def emptyProviderData : String := "sanitized-empty-object"

/-- Modelled from the spec: the fixed client-side completion URL prefix
used by `getRedirectUriForOneTimeCode` (oauth/redirect.ts, not in the
sampled tree). -/
def clientCompletionUrl : String := "client-app/oauth/callback"

/-- Modelled from the spec: `getRedirectUriForOneTimeCode`
(oauth/redirect.ts, not in the sampled tree) returns the fixed client
completion URL carrying only the opaque code as a query parameter. -/
def getRedirectUriForOneTimeCode (oneTimeCode : String) : String :=
  clientCompletionUrl ++ "?code=" ++ oneTimeCode

/-- Modelled from the spec: `tokenStore.createToken` (oauth/oneTimeCode.ts,
not in the sampled tree) stores the freshly generated code bound to the
given authId. -/
def createToken (tokens : List (String × Nat)) (code : String) (authId : Nat) :
    List (String × Nat) :=
  tokens ++ [(code, authId)]

/-- Modelled from the spec: the one-time-code store's `consume`: an atomic
take that returns the bound authId and deletes the record, or "not found"
for an unknown code. -/
def consume (tokens : List (String × Nat)) (code : String) :
    Option Nat × List (String × Nat) :=
  match tokens.find? (fun p => p.1 == code) with
  | none => (none, tokens)
  | some p => (some p.2, tokens.filter (fun q => q.1 != code))

/-- The prisma `authIdentity.findUnique` lookup on the unique
(providerName, providerUserId) key (user.ts lines 66-77), over the
embedded identity store. -/
def findUniqueAuthIdentity (db : DB) (pid : ProviderId) : Option AuthIdentityRow :=
  db.identities.find? (fun r =>
    r.providerName == pid.providerName && r.providerUserId == pid.providerUserId)

/-- Modelled from the spec: `createUser` (wasp/auth/utils, not in the
sampled tree) creates the User, Auth and AuthIdentity rows in a single
logical transaction, failing with DuplicateIdentityError when the identity
key already exists, and returns the created user with its auth id. -/
def createUser (db : DB) (pid : ProviderId) (providerData : String)
    (_userFields : String) : Except String (CreatedUser × DB) :=
  match findUniqueAuthIdentity db pid with
  | some _ => .error "DuplicateIdentityError"
  | none =>
    let authId := db.nextAuthId
    let userId := db.nextUserId
    .ok ({ id := userId, authId := authId },
      { identities := db.identities ++
          [{ providerName := pid.providerName, providerUserId := pid.providerUserId,
             providerData := providerData, authId := authId }],
        auths := db.auths ++ [authId],
        users := db.users ++ [{ id := userId, authId := authId }],
        nextAuthId := authId + 1,
        nextUserId := userId + 1 })

/-- Embedding of `getAuthIdFromProviderDetails` (user.ts lines 51-110):
look up the identity; on a hit return the existing auth's id; on a miss
validate the signup fields, serialize provider data, run the
onBeforeSignupHook, create the user, run the onAfterSignupHook with the
oauth context, and return the new auth id.  Errors propagate with the
state reached so far (no rollback is performed by this function). -/
def getAuthIdFromProviderDetails (env : Env) (providerId : ProviderId)
    (providerProfile : String) (accessToken : String) (oAuthStateState : String)
    (s : St) : Except String Nat × St :=
  let found := findUniqueAuthIdentity s.db providerId
  let s1 : St := { s with trace := s.trace ++ [Ev.lookup providerId] }
  match found with
  | some row => (.ok row.authId, s1)
  | none =>
    match env.validateFields providerProfile with
    | .error e => (.error e, s1)
    | .ok userFields =>
      let providerData := emptyProviderData
      let s2 : St := { s1 with trace := s1.trace ++ [Ev.beforeSignup providerId] }
      match env.beforeSignupResult with
      | .error e => (.error e, s2)
      | .ok _ =>
        match createUser s2.db providerId providerData userFields with
        | .error e => (.error e, s2)
        | .ok (user, db2) =>
          let s3 : St :=
            { s2 with db := db2,
                      trace := s2.trace ++ [Ev.userCreated providerId user.authId user.id] }
          let s4 : St :=
            { s3 with trace := s3.trace ++
                        [Ev.afterSignup providerId user.id accessToken oAuthStateState] }
          match env.afterSignupResult with
          | .error e => (.error e, s4)
          | .ok _ => (.ok user.authId, s4)

/-- Embedding of `finishOAuthFlowAndGetRedirectUri` (user.ts lines 16-47):
build the ProviderId, resolve the auth id, create a one-time code bound to
it, and return the redirect URI for that code. -/
def finishOAuthFlowAndGetRedirectUri (env : Env) (providerConfigId : String)
    (providerProfile : String) (providerUserId : String) (accessToken : String)
    (oAuthStateState : String) (s : St) : Except String String × St :=
  let providerId := createProviderId providerConfigId providerUserId
  match getAuthIdFromProviderDetails env providerId providerProfile accessToken
      oAuthStateState s with
  | (.error e, s1) => (.error e, s1)
  | (.ok authId, s1) =>
    let oneTimeCode := env.freshCode
    let s2 : St :=
      { s1 with tokens := createToken s1.tokens oneTimeCode authId,
                trace := s1.trace ++ [Ev.tokenCreated oneTimeCode authId] }
    (.ok (getRedirectUriForOneTimeCode oneTimeCode), s2)

/-- The parsed Google userinfo response, as the adapter types it:
an object with an optional string field `sub` (part_000 lines 43-45). -/
structure GoogleUserInfo where
  sub : Option String
deriving DecidableEq, Repr

/-- Embedding of `getGoogleProfile` (part_000 lines 31-52) after the
response body is parsed: throw "Invalid profile" when `sub` is falsy
(absent or the empty string), otherwise return the profile and `sub` as
the providerUserId. -/
def getGoogleProfile (resp : GoogleUserInfo) :
    Except String (GoogleUserInfo × String) :=
  match resp.sub with
  | none => .error "Invalid profile"
  | some s => if s == "" then .error "Invalid profile" else .ok (resp, s)

/-- The auth id the callback's ProviderId resolves to: the existing
identity's auth id on the login path, the next fresh auth id on the
signup path. -/
def resolvedAuthId (db : DB) (pid : ProviderId) : Nat :=
  match findUniqueAuthIdentity db pid with
  | some row => row.authId
  | none => db.nextAuthId

/-- Recognizer for one-time-code-issuance events. -/
def isTokenCreated : Ev → Bool
  | Ev.tokenCreated _ _ => true
  | _ => false

/-- Recognizer for afterSignup-hook-invocation events. -/
def isAfterSignup : Ev → Bool
  | Ev.afterSignup _ _ _ _ => true
  | _ => false

/-- The events a run appended to the trace, in order. -/
def newEvents (s s1 : St) : List Ev :=
  s1.trace.drop s.trace.length

/-- The identity store after a successful signup for `pid`: the new
AuthIdentity, Auth and User rows appended, counters advanced. -/
def dbAfterSignup (db : DB) (pid : ProviderId) : DB :=
  { identities := db.identities ++
      [{ providerName := pid.providerName, providerUserId := pid.providerUserId,
         providerData := emptyProviderData, authId := db.nextAuthId }],
    auths := db.auths ++ [db.nextAuthId],
    users := db.users ++ [{ id := db.nextUserId, authId := db.nextAuthId }],
    nextAuthId := db.nextAuthId + 1,
    nextUserId := db.nextUserId + 1 }

theorem getAuthId_login_run (env : Env) (pid : ProviderId) (prof tok stt : String)
    (s : St) (row : AuthIdentityRow)
    (hfound : findUniqueAuthIdentity s.db pid = some row) :
    getAuthIdFromProviderDetails env pid prof tok stt s =
      (.ok row.authId, { s with trace := s.trace ++ [Ev.lookup pid] }) := by
  simp only [getAuthIdFromProviderDetails, hfound]

theorem getAuthId_signup_ok_run (env : Env) (pid : ProviderId) (prof tok stt : String)
    (s : St) (uf : String)
    (hfound : findUniqueAuthIdentity s.db pid = none)
    (hval : env.validateFields prof = .ok uf)
    (hbef : env.beforeSignupResult = .ok ())
    (haft : env.afterSignupResult = .ok ()) :
    getAuthIdFromProviderDetails env pid prof tok stt s =
      (.ok s.db.nextAuthId,
       { db := dbAfterSignup s.db pid,
         tokens := s.tokens,
         trace := s.trace ++ [Ev.lookup pid, Ev.beforeSignup pid,
           Ev.userCreated pid s.db.nextAuthId s.db.nextUserId,
           Ev.afterSignup pid s.db.nextUserId tok stt] }) := by
  simp [getAuthIdFromProviderDetails, hfound, hval, hbef, haft, createUser,
    dbAfterSignup]

theorem getAuthId_beforeHook_fails_run (env : Env) (pid : ProviderId)
    (prof tok stt : String) (s : St) (uf e : String)
    (hfound : findUniqueAuthIdentity s.db pid = none)
    (hval : env.validateFields prof = .ok uf)
    (hbef : env.beforeSignupResult = .error e) :
    getAuthIdFromProviderDetails env pid prof tok stt s =
      (.error e,
       { s with trace := s.trace ++ [Ev.lookup pid, Ev.beforeSignup pid] }) := by
  simp [getAuthIdFromProviderDetails, hfound, hval, hbef]

theorem getAuthId_afterHook_fails_run (env : Env) (pid : ProviderId)
    (prof tok stt : String) (s : St) (uf e : String)
    (hfound : findUniqueAuthIdentity s.db pid = none)
    (hval : env.validateFields prof = .ok uf)
    (hbef : env.beforeSignupResult = .ok ())
    (haft : env.afterSignupResult = .error e) :
    getAuthIdFromProviderDetails env pid prof tok stt s =
      (.error e,
       { db := dbAfterSignup s.db pid,
         tokens := s.tokens,
         trace := s.trace ++ [Ev.lookup pid, Ev.beforeSignup pid,
           Ev.userCreated pid s.db.nextAuthId s.db.nextUserId,
           Ev.afterSignup pid s.db.nextUserId tok stt] }) := by
  simp [getAuthIdFromProviderDetails, hfound, hval, hbef, haft, createUser,
    dbAfterSignup]

theorem finish_login_run (env : Env) (pname prof puid tok stt : String) (s : St)
    (row : AuthIdentityRow)
    (hfound : findUniqueAuthIdentity s.db (createProviderId pname puid) = some row) :
    finishOAuthFlowAndGetRedirectUri env pname prof puid tok stt s =
      (.ok (getRedirectUriForOneTimeCode env.freshCode),
       { db := s.db,
         tokens := s.tokens ++ [(env.freshCode, row.authId)],
         trace := s.trace ++ [Ev.lookup (createProviderId pname puid),
            Ev.tokenCreated env.freshCode row.authId] }) := by
  simp [finishOAuthFlowAndGetRedirectUri,
    getAuthId_login_run env _ prof tok stt s row hfound, createToken]

theorem finish_signup_ok_run (env : Env) (pname prof puid tok stt : String) (s : St)
    (uf : String)
    (hfound : findUniqueAuthIdentity s.db (createProviderId pname puid) = none)
    (hval : env.validateFields prof = .ok uf)
    (hbef : env.beforeSignupResult = .ok ())
    (haft : env.afterSignupResult = .ok ()) :
    finishOAuthFlowAndGetRedirectUri env pname prof puid tok stt s =
      (.ok (getRedirectUriForOneTimeCode env.freshCode),
       { db := dbAfterSignup s.db (createProviderId pname puid),
         tokens := s.tokens ++ [(env.freshCode, s.db.nextAuthId)],
         trace := s.trace ++ [Ev.lookup (createProviderId pname puid),
            Ev.beforeSignup (createProviderId pname puid),
            Ev.userCreated (createProviderId pname puid) s.db.nextAuthId s.db.nextUserId,
            Ev.afterSignup (createProviderId pname puid) s.db.nextUserId tok stt,
            Ev.tokenCreated env.freshCode s.db.nextAuthId] }) := by
  simp [finishOAuthFlowAndGetRedirectUri,
    getAuthId_signup_ok_run env _ prof tok stt s uf hfound hval hbef haft, createToken]

theorem finish_beforeFail_run (env : Env) (pname prof puid tok stt : String) (s : St)
    (uf e : String)
    (hfound : findUniqueAuthIdentity s.db (createProviderId pname puid) = none)
    (hval : env.validateFields prof = .ok uf)
    (hbef : env.beforeSignupResult = .error e) :
    finishOAuthFlowAndGetRedirectUri env pname prof puid tok stt s =
      (.error e,
       { s with trace := s.trace ++ [Ev.lookup (createProviderId pname puid),
            Ev.beforeSignup (createProviderId pname puid)] }) := by
  simp [finishOAuthFlowAndGetRedirectUri,
    getAuthId_beforeHook_fails_run env _ prof tok stt s uf e hfound hval hbef]

theorem finish_afterFail_run (env : Env) (pname prof puid tok stt : String) (s : St)
    (uf e : String)
    (hfound : findUniqueAuthIdentity s.db (createProviderId pname puid) = none)
    (hval : env.validateFields prof = .ok uf)
    (hbef : env.beforeSignupResult = .ok ())
    (haft : env.afterSignupResult = .error e) :
    finishOAuthFlowAndGetRedirectUri env pname prof puid tok stt s =
      (.error e,
       { db := dbAfterSignup s.db (createProviderId pname puid),
         tokens := s.tokens,
         trace := s.trace ++ [Ev.lookup (createProviderId pname puid),
            Ev.beforeSignup (createProviderId pname puid),
            Ev.userCreated (createProviderId pname puid) s.db.nextAuthId s.db.nextUserId,
            Ev.afterSignup (createProviderId pname puid) s.db.nextUserId tok stt] }) := by
  simp [finishOAuthFlowAndGetRedirectUri,
    getAuthId_afterHook_fails_run env _ prof tok stt s uf e hfound hval hbef haft]

/-- C1: for every successful callback completion,
`finishOAuthFlowAndGetRedirectUri` issues exactly one one-time code via
the token store, the authId bound to that code is the auth id resolved for
the callback's ProviderId (the existing identity's auth id on the login
path, the newly created user's auth id on the signup path), and consuming
that code once yields that auth id. -/
theorem finishOAuth_issues_one_code_bound_to_resolved_auth
    (env : Env) (pname prof puid tok stt : String) (s : St) (url : String) (s1 : St)
    (hrun : finishOAuthFlowAndGetRedirectUri env pname prof puid tok stt s = (.ok url, s1))
    (hfresh : s.tokens.find? (fun p => p.1 == env.freshCode) = none) :
    (newEvents s s1).filter isTokenCreated =
        [Ev.tokenCreated env.freshCode (resolvedAuthId s.db (createProviderId pname puid))] ∧
      (consume s1.tokens env.freshCode).1 =
        some (resolvedAuthId s.db (createProviderId pname puid)) := by
  cases hfound : findUniqueAuthIdentity s.db (createProviderId pname puid) with
  | some row =>
    rw [finish_login_run env pname prof puid tok stt s row hfound] at hrun
    simp only [Prod.mk.injEq, Except.ok.injEq] at hrun
    obtain ⟨hu, hs⟩ := hrun
    subst hu; subst hs
    refine ⟨?_, ?_⟩
    · simp [newEvents, List.drop_left, isTokenCreated, resolvedAuthId, hfound]
    · simp only [consume, List.find?_append, hfresh, resolvedAuthId, hfound]
      simp
  | none =>
    cases hval : env.validateFields prof with
    | error e =>
      exfalso
      simp [finishOAuthFlowAndGetRedirectUri, getAuthIdFromProviderDetails,
        hfound, hval] at hrun
    | ok uf =>
      cases hbef : env.beforeSignupResult with
      | error e =>
        exfalso
        rw [finish_beforeFail_run env pname prof puid tok stt s uf e hfound hval hbef] at hrun
        simp at hrun
      | ok u =>
        cases u
        cases haft : env.afterSignupResult with
        | error e =>
          exfalso
          rw [finish_afterFail_run env pname prof puid tok stt s uf e
            hfound hval hbef haft] at hrun
          simp at hrun
        | ok v =>
          cases v
          rw [finish_signup_ok_run env pname prof puid tok stt s uf
            hfound hval hbef haft] at hrun
          simp only [Prod.mk.injEq, Except.ok.injEq] at hrun
          obtain ⟨hu, hs⟩ := hrun
          subst hu; subst hs
          refine ⟨?_, ?_⟩
          · simp [newEvents, List.drop_left, isTokenCreated, resolvedAuthId, hfound]
          · simp only [consume, List.find?_append, hfresh, resolvedAuthId, hfound]
            simp

/-- Concrete environment for the witnesses: validation succeeds, both
hooks succeed, the token store generates the code "otc-1". -/
def envW : Env :=
  { validateFields := fun _ => .ok "fields",
    beforeSignupResult := .ok (),
    afterSignupResult := .ok (),
    freshCode := "otc-1" }

/-- Concrete empty starting state for the witnesses. -/
def stW : St :=
  { db := { identities := [], auths := [], users := [],
            nextAuthId := 1, nextUserId := 1 },
    tokens := [],
    trace := [] }

/-- Witness for C1: the theorem applied to a concrete signup-path run. -/
theorem finishOAuth_issues_one_code_bound_to_resolved_auth_witness :
    (newEvents stW
        (finishOAuthFlowAndGetRedirectUri envW "google" "prof" "gid-9" "at" "s1" stW).2).filter
        isTokenCreated =
      [Ev.tokenCreated "otc-1" (resolvedAuthId stW.db (createProviderId "google" "gid-9"))] ∧
      (consume (finishOAuthFlowAndGetRedirectUri envW "google" "prof" "gid-9" "at" "s1" stW).2.tokens
          "otc-1").1 =
        some (resolvedAuthId stW.db (createProviderId "google" "gid-9")) :=
  finishOAuth_issues_one_code_bound_to_resolved_auth envW "google" "prof" "gid-9" "at" "s1"
    stW (getRedirectUriForOneTimeCode "otc-1")
    (finishOAuthFlowAndGetRedirectUri envW "google" "prof" "gid-9" "at" "s1" stW).2
    (by rfl) (by rfl)

/-- Recognizer for signup-hook-invocation events (either hook). -/
def isSignupHook : Ev → Bool
  | Ev.beforeSignup _ => true
  | Ev.afterSignup _ _ _ _ => true
  | _ => false

/-- C2: when the onBeforeSignupHook rejects on the identity-creation path,
getAuthIdFromProviderDetails propagates that failure through
finishOAuthFlowAndGetRedirectUri, no User/Auth/AuthIdentity row is
created (the identity store is unchanged), the afterSignup hook is never
invoked, and no one-time code is issued (the token store is unchanged and
no token-creation event occurs). -/
theorem beforeSignup_failure_aborts_without_writes
    (env : Env) (pname prof puid tok stt : String) (s : St) (uf e : String)
    (hfound : findUniqueAuthIdentity s.db (createProviderId pname puid) = none)
    (hval : env.validateFields prof = .ok uf)
    (hbef : env.beforeSignupResult = .error e) :
    (finishOAuthFlowAndGetRedirectUri env pname prof puid tok stt s).1 = .error e ∧
      (finishOAuthFlowAndGetRedirectUri env pname prof puid tok stt s).2.db = s.db ∧
      (finishOAuthFlowAndGetRedirectUri env pname prof puid tok stt s).2.tokens = s.tokens ∧
      newEvents s (finishOAuthFlowAndGetRedirectUri env pname prof puid tok stt s).2 =
        [Ev.lookup (createProviderId pname puid),
         Ev.beforeSignup (createProviderId pname puid)] := by
  rw [finish_beforeFail_run env pname prof puid tok stt s uf e hfound hval hbef]
  simp [newEvents, List.drop_left]

/-- Concrete environment for the C2 witness: the before-signup hook
rejects the banned email. -/
def envBan : Env :=
  { validateFields := fun _ => .ok "fields",
    beforeSignupResult := .error "This email is not allowed",
    afterSignupResult := .ok (),
    freshCode := "otc-1" }

/-- Witness for C2: the theorem applied to a concrete rejected signup. -/
theorem beforeSignup_failure_aborts_without_writes_witness :
    (finishOAuthFlowAndGetRedirectUri envBan "email" "prof" "banned@example.com" "at" "s1"
        stW).1 = .error "This email is not allowed" ∧
      (finishOAuthFlowAndGetRedirectUri envBan "email" "prof" "banned@example.com" "at" "s1"
        stW).2.db = stW.db ∧
      (finishOAuthFlowAndGetRedirectUri envBan "email" "prof" "banned@example.com" "at" "s1"
        stW).2.tokens = stW.tokens ∧
      newEvents stW (finishOAuthFlowAndGetRedirectUri envBan "email" "prof"
          "banned@example.com" "at" "s1" stW).2 =
        [Ev.lookup (createProviderId "email" "banned@example.com"),
         Ev.beforeSignup (createProviderId "email" "banned@example.com")] :=
  beforeSignup_failure_aborts_without_writes envBan "email" "prof" "banned@example.com"
    "at" "s1" stW "fields" "This email is not allowed" (by rfl) (by rfl) (by rfl)

/-- C3: when the ProviderId matches an existing AuthIdentity,
getAuthIdFromProviderDetails returns the existing auth's id and invokes
neither the before-signup nor the after-signup hook. -/
theorem login_path_returns_existing_auth_and_skips_hooks
    (env : Env) (pid : ProviderId) (prof tok stt : String) (s : St)
    (row : AuthIdentityRow)
    (hfound : findUniqueAuthIdentity s.db pid = some row) :
    (getAuthIdFromProviderDetails env pid prof tok stt s).1 = .ok row.authId ∧
      (newEvents s (getAuthIdFromProviderDetails env pid prof tok stt s).2).filter
        isSignupHook = [] := by
  rw [getAuthId_login_run env pid prof tok stt s row hfound]
  simp [newEvents, List.drop_left, isSignupHook]

/-- Concrete identity row for the login-path witnesses. -/
def rowW : AuthIdentityRow :=
  { providerName := "google", providerUserId := "gid-9",
    providerData := "blob", authId := 7 }

/-- Concrete state with one existing identity for the login-path
witnesses. -/
def stLogin : St :=
  { db := { identities := [rowW], auths := [7], users := [{ id := 3, authId := 7 }],
            nextAuthId := 8, nextUserId := 4 },
    tokens := [],
    trace := [] }

/-- Witness for C3: the theorem applied to a concrete existing identity. -/
theorem login_path_returns_existing_auth_and_skips_hooks_witness :
    (getAuthIdFromProviderDetails envW (createProviderId "google" "gid-9") "prof" "at" "s1"
        stLogin).1 = .ok rowW.authId ∧
      (newEvents stLogin (getAuthIdFromProviderDetails envW (createProviderId "google" "gid-9")
          "prof" "at" "s1" stLogin).2).filter isSignupHook = [] :=
  login_path_returns_existing_auth_and_skips_hooks envW (createProviderId "google" "gid-9")
    "prof" "at" "s1" stLogin rowW (by rfl)

/-- C4: on a successful signup-path callback the after-signup hook is
invoked exactly once, strictly after the user creation, and its oauth
context carries the provider access token and a uniqueRequestId equal to
the flow's state nonce: the run's events are exactly the lookup, the
before-signup hook, the user creation, and one after-signup invocation
with that context. -/
theorem afterSignup_invoked_once_after_createUser_with_context
    (env : Env) (pid : ProviderId) (prof tok stt : String) (s : St) (uf : String)
    (hfound : findUniqueAuthIdentity s.db pid = none)
    (hval : env.validateFields prof = .ok uf)
    (hbef : env.beforeSignupResult = .ok ())
    (haft : env.afterSignupResult = .ok ()) :
    newEvents s (getAuthIdFromProviderDetails env pid prof tok stt s).2 =
      [Ev.lookup pid, Ev.beforeSignup pid,
       Ev.userCreated pid s.db.nextAuthId s.db.nextUserId,
       Ev.afterSignup pid s.db.nextUserId tok stt] := by
  rw [getAuthId_signup_ok_run env pid prof tok stt s uf hfound hval hbef haft]
  simp [newEvents, List.drop_left]

/-- Witness for C4: the theorem applied to a concrete fresh signup. -/
theorem afterSignup_invoked_once_after_createUser_with_context_witness :
    newEvents stW (getAuthIdFromProviderDetails envW (createProviderId "google" "gid-9")
        "prof" "at" "s1" stW).2 =
      [Ev.lookup (createProviderId "google" "gid-9"),
       Ev.beforeSignup (createProviderId "google" "gid-9"),
       Ev.userCreated (createProviderId "google" "gid-9") stW.db.nextAuthId stW.db.nextUserId,
       Ev.afterSignup (createProviderId "google" "gid-9") stW.db.nextUserId "at" "s1"] :=
  afterSignup_invoked_once_after_createUser_with_context envW
    (createProviderId "google" "gid-9") "prof" "at" "s1" stW "fields"
    (by rfl) (by rfl) (by rfl) (by rfl)

/-- C5 counterexample: a Google userinfo response whose sub field is
present but equal to the empty string refutes the claim as stated: the
response does not lack the sub field, yet getGoogleProfile fails instead
of returning that value as providerUserId. -/
theorem getGoogleProfile_claim_fails_on_empty_sub :
    ({ sub := some "" } : GoogleUserInfo).sub = some "" ∧
      getGoogleProfile { sub := some "" } = .error "Invalid profile" ∧
      getGoogleProfile { sub := some "" } ≠
        .ok ({ sub := some "" }, "") := by
  refine ⟨rfl, rfl, ?_⟩
  intro h
  simp [getGoogleProfile] at h

/-- C5 amended: getGoogleProfile fails with the profile error exactly when
the response's sub is absent or the empty string; for any non-empty sub it
returns the profile and that sub as providerUserId. -/
theorem getGoogleProfile_fails_iff_sub_missing_or_empty (resp : GoogleUserInfo) :
    ((∃ err, getGoogleProfile resp = .error err) ↔
        (resp.sub = none ∨ resp.sub = some "")) ∧
      (∀ s, resp.sub = some s → s ≠ "" → getGoogleProfile resp = .ok (resp, s)) := by
  cases hsub : resp.sub with
  | none => simp [getGoogleProfile, hsub]
  | some s =>
    by_cases hs : s = ""
    · subst hs
      simp [getGoogleProfile, hsub]
    · simp [getGoogleProfile, hsub, hs]

/-- Witness for the C5 amended theorem: evaluated at a concrete response
with a non-empty sub. -/
theorem getGoogleProfile_fails_iff_sub_missing_or_empty_witness :
    getGoogleProfile { sub := some "gid-9" } = .ok ({ sub := some "gid-9" }, "gid-9") :=
  (getGoogleProfile_fails_iff_sub_missing_or_empty { sub := some "gid-9" }).2
    "gid-9" (by rfl) (by decide)

theorem finish_ok_url (env : Env) (pname prof puid tok stt url : String) (s s1 : St)
    (hrun : finishOAuthFlowAndGetRedirectUri env pname prof puid tok stt s =
      (.ok url, s1)) :
    url = getRedirectUriForOneTimeCode env.freshCode := by
  simp only [finishOAuthFlowAndGetRedirectUri] at hrun
  cases hres : getAuthIdFromProviderDetails env (createProviderId pname puid) prof tok
      stt s with
  | mk r st1 =>
    rw [hres] at hrun
    cases r with
    | error e => simp at hrun
    | ok a =>
      simp only [Prod.mk.injEq, Except.ok.injEq] at hrun
      exact hrun.1.symm

/-- C6: the completion redirect URL of a successful run is a function of
the issued one-time code alone: two successful runs issuing the same code
return the same URL, however much they differ in access token, profile,
provider user id, state, or starting state. -/
theorem completion_url_depends_only_on_code
    (env1 env2 : Env) (pn1 pr1 pu1 tk1 st1 pn2 pr2 pu2 tk2 st2 : String)
    (s t : St) (url1 url2 : String) (s1 t1 : St)
    (h1 : finishOAuthFlowAndGetRedirectUri env1 pn1 pr1 pu1 tk1 st1 s = (.ok url1, s1))
    (h2 : finishOAuthFlowAndGetRedirectUri env2 pn2 pr2 pu2 tk2 st2 t = (.ok url2, t1))
    (hcode : env1.freshCode = env2.freshCode) :
    url1 = url2 := by
  rw [finish_ok_url env1 pn1 pr1 pu1 tk1 st1 url1 s s1 h1,
    finish_ok_url env2 pn2 pr2 pu2 tk2 st2 url2 t t1 h2, hcode]

/-- Environment for the C6 witness: same generated code as envW but a
different access token, different hook-visible data and a different
starting state. -/
def envW2 : Env :=
  { validateFields := fun _ => .ok "other-fields",
    beforeSignupResult := .ok (),
    afterSignupResult := .ok (),
    freshCode := "otc-1" }

/-- Witness for C6: a signup-path run and a login-path run that issue the
same code return the same URL. -/
theorem completion_url_depends_only_on_code_witness :
    (finishOAuthFlowAndGetRedirectUri envW "google" "prof" "gid-9" "at" "s1" stW).1 =
        .ok (getRedirectUriForOneTimeCode "otc-1") ∧
      (finishOAuthFlowAndGetRedirectUri envW2 "google" "prof2" "gid-9" "at2" "s2"
          stLogin).1 = .ok (getRedirectUriForOneTimeCode "otc-1") ∧
      getRedirectUriForOneTimeCode "otc-1" = getRedirectUriForOneTimeCode "otc-1" :=
  ⟨by rfl, by rfl,
    completion_url_depends_only_on_code envW envW2 "google" "prof" "gid-9" "at" "s1"
      "google" "prof2" "gid-9" "at2" "s2" stW stLogin
      (getRedirectUriForOneTimeCode "otc-1") (getRedirectUriForOneTimeCode "otc-1")
      (finishOAuthFlowAndGetRedirectUri envW "google" "prof" "gid-9" "at" "s1" stW).2
      (finishOAuthFlowAndGetRedirectUri envW2 "google" "prof2" "gid-9" "at2" "s2" stLogin).2
      (by rfl) (by rfl) (by rfl)⟩

/-- C7: on a successful signup-path run of finishOAuthFlowAndGetRedirectUri
the events happen strictly in sequence: the identity lookup, then the
before-signup hook to completion, then the user creation, then the
after-signup hook to completion, then the one-time-code creation — the
run's trace is exactly that sequence. -/
theorem signup_flow_strictly_sequential
    (env : Env) (pname prof puid tok stt : String) (s : St) (uf : String)
    (hfound : findUniqueAuthIdentity s.db (createProviderId pname puid) = none)
    (hval : env.validateFields prof = .ok uf)
    (hbef : env.beforeSignupResult = .ok ())
    (haft : env.afterSignupResult = .ok ()) :
    newEvents s (finishOAuthFlowAndGetRedirectUri env pname prof puid tok stt s).2 =
      [Ev.lookup (createProviderId pname puid),
       Ev.beforeSignup (createProviderId pname puid),
       Ev.userCreated (createProviderId pname puid) s.db.nextAuthId s.db.nextUserId,
       Ev.afterSignup (createProviderId pname puid) s.db.nextUserId tok stt,
       Ev.tokenCreated env.freshCode s.db.nextAuthId] := by
  rw [finish_signup_ok_run env pname prof puid tok stt s uf hfound hval hbef haft]
  simp [newEvents, List.drop_left]

/-- Witness for C7: the theorem applied to a concrete fresh signup. -/
theorem signup_flow_strictly_sequential_witness :
    newEvents stW (finishOAuthFlowAndGetRedirectUri envW "google" "prof" "gid-9" "at" "s1"
        stW).2 =
      [Ev.lookup (createProviderId "google" "gid-9"),
       Ev.beforeSignup (createProviderId "google" "gid-9"),
       Ev.userCreated (createProviderId "google" "gid-9") stW.db.nextAuthId stW.db.nextUserId,
       Ev.afterSignup (createProviderId "google" "gid-9") stW.db.nextUserId "at" "s1",
       Ev.tokenCreated "otc-1" stW.db.nextAuthId] :=
  signup_flow_strictly_sequential envW "google" "prof" "gid-9" "at" "s1" stW "fields"
    (by rfl) (by rfl) (by rfl) (by rfl)

/-- C8: when the after-signup hook fails after the user creation
succeeded, the error propagates out of finishOAuthFlowAndGetRedirectUri,
the created User/Auth/AuthIdentity rows stay committed (the new identity
is present in the resulting store; nothing is rolled back by this
function), but no one-time code is created and no redirect URL is
returned. -/
theorem afterSignup_failure_propagates_account_committed
    (env : Env) (pname prof puid tok stt : String) (s : St) (uf e : String)
    (hfound : findUniqueAuthIdentity s.db (createProviderId pname puid) = none)
    (hval : env.validateFields prof = .ok uf)
    (hbef : env.beforeSignupResult = .ok ())
    (haft : env.afterSignupResult = .error e) :
    (finishOAuthFlowAndGetRedirectUri env pname prof puid tok stt s).1 = .error e ∧
      (finishOAuthFlowAndGetRedirectUri env pname prof puid tok stt s).2.db =
        dbAfterSignup s.db (createProviderId pname puid) ∧
      findUniqueAuthIdentity
          (finishOAuthFlowAndGetRedirectUri env pname prof puid tok stt s).2.db
          (createProviderId pname puid) =
        some { providerName := pname, providerUserId := puid,
               providerData := emptyProviderData, authId := s.db.nextAuthId } ∧
      (finishOAuthFlowAndGetRedirectUri env pname prof puid tok stt s).2.tokens =
        s.tokens ∧
      (newEvents s
          (finishOAuthFlowAndGetRedirectUri env pname prof puid tok stt s).2).filter
        isTokenCreated = [] := by
  rw [finish_afterFail_run env pname prof puid tok stt s uf e hfound hval hbef haft]
  refine ⟨rfl, rfl, ?_, rfl, ?_⟩
  · simp only [findUniqueAuthIdentity, dbAfterSignup, createProviderId] at hfound ⊢
    rw [List.find?_append, hfound]
    simp
  · simp [newEvents, List.drop_left, isTokenCreated]

/-- Environment for the C8 witness: the after-signup hook fails. -/
def envAfterFail : Env :=
  { validateFields := fun _ => .ok "fields",
    beforeSignupResult := .ok (),
    afterSignupResult := .error "welcome email failed",
    freshCode := "otc-1" }

/-- Witness for C8: the theorem applied to a concrete failing
after-signup hook. -/
theorem afterSignup_failure_propagates_account_committed_witness :
    (finishOAuthFlowAndGetRedirectUri envAfterFail "google" "prof" "gid-9" "at" "s1"
        stW).1 = .error "welcome email failed" ∧
      (finishOAuthFlowAndGetRedirectUri envAfterFail "google" "prof" "gid-9" "at" "s1"
          stW).2.db = dbAfterSignup stW.db (createProviderId "google" "gid-9") ∧
      findUniqueAuthIdentity
          (finishOAuthFlowAndGetRedirectUri envAfterFail "google" "prof" "gid-9" "at" "s1"
            stW).2.db (createProviderId "google" "gid-9") =
        some { providerName := "google", providerUserId := "gid-9",
               providerData := emptyProviderData, authId := stW.db.nextAuthId } ∧
      (finishOAuthFlowAndGetRedirectUri envAfterFail "google" "prof" "gid-9" "at" "s1"
          stW).2.tokens = stW.tokens ∧
      (newEvents stW (finishOAuthFlowAndGetRedirectUri envAfterFail "google" "prof" "gid-9"
          "at" "s1" stW).2).filter isTokenCreated = [] :=
  afterSignup_failure_propagates_account_committed envAfterFail "google" "prof" "gid-9"
    "at" "s1" stW "fields" "welcome email failed" (by rfl) (by rfl) (by rfl) (by rfl)

/-- C9: getGoogleProfile treats a sub field that is present but equal to
the empty string the same as a missing sub — it throws the same profile
error — so every providerUserId it returns is a non-empty string. -/
theorem getGoogleProfile_returns_nonempty_providerUserId :
    (∀ resp : GoogleUserInfo, resp.sub = some "" →
        getGoogleProfile resp = .error "Invalid profile" ∧
          getGoogleProfile resp = getGoogleProfile { sub := none }) ∧
      (∀ (resp p : GoogleUserInfo) (uid : String),
        getGoogleProfile resp = .ok (p, uid) → uid ≠ "") := by
  constructor
  · intro resp h
    constructor <;> simp [getGoogleProfile, h]
  · intro resp p uid h
    cases hsub : resp.sub with
    | none => simp [getGoogleProfile, hsub] at h
    | some s =>
      by_cases hs : s = ""
      · subst hs
        simp [getGoogleProfile, hsub] at h
      · simp only [getGoogleProfile, hsub, beq_iff_eq, if_neg hs, Except.ok.injEq,
          Prod.mk.injEq] at h
        intro huid
        exact hs (h.2.trans huid)

/-- Witness for C9: evaluated at a concrete empty-sub response and a
concrete successful response. -/
theorem getGoogleProfile_returns_nonempty_providerUserId_witness :
    (getGoogleProfile { sub := some "" } = .error "Invalid profile" ∧
        getGoogleProfile { sub := some "" } = getGoogleProfile { sub := none }) ∧
      ("gid-9" : String) ≠ "" :=
  ⟨getGoogleProfile_returns_nonempty_providerUserId.1 { sub := some "" } (by rfl),
    getGoogleProfile_returns_nonempty_providerUserId.2 { sub := some "gid-9" }
      { sub := some "gid-9" } "gid-9" (by rfl)⟩

/-- C10: on the existing-identity (login) path
getAuthIdFromProviderDetails performs no persistence writes: the identity
store and the token store are unchanged, and the only event of the run is
the read-only lookup. -/
theorem login_path_performs_no_writes
    (env : Env) (pid : ProviderId) (prof tok stt : String) (s : St)
    (row : AuthIdentityRow)
    (hfound : findUniqueAuthIdentity s.db pid = some row) :
    (getAuthIdFromProviderDetails env pid prof tok stt s).2.db = s.db ∧
      (getAuthIdFromProviderDetails env pid prof tok stt s).2.tokens = s.tokens ∧
      newEvents s (getAuthIdFromProviderDetails env pid prof tok stt s).2 =
        [Ev.lookup pid] := by
  rw [getAuthId_login_run env pid prof tok stt s row hfound]
  simp [newEvents, List.drop_left]

/-- Witness for C10: the theorem applied to a concrete existing
identity. -/
theorem login_path_performs_no_writes_witness :
    (getAuthIdFromProviderDetails envW (createProviderId "google" "gid-9") "prof" "at" "s1"
        stLogin).2.db = stLogin.db ∧
      (getAuthIdFromProviderDetails envW (createProviderId "google" "gid-9") "prof" "at"
          "s1" stLogin).2.tokens = stLogin.tokens ∧
      newEvents stLogin (getAuthIdFromProviderDetails envW (createProviderId "google" "gid-9")
          "prof" "at" "s1" stLogin).2 = [Ev.lookup (createProviderId "google" "gid-9")] :=
  login_path_performs_no_writes envW (createProviderId "google" "gid-9") "prof" "at" "s1"
    stLogin rowW (by rfl)
